import Mathlib

/-!
Verification of the validator combinator engine of `servicemngr`
(`src/servicemngr/args.py`).

The engine walks already-deserialized Python values (scalars, lists, tuples,
dicts) with a tree of validator objects.  Every validator's `_validate`
returns either the (possibly transformed) value on success or the Python
`None` sentinel on failure; `AnyValidator` can additionally raise
`Exception('Multiple validators matched!')`, and its final `return` line
references the undefined name `checkResult`, raising `NameError`.

The shallow embedding below mirrors `args.py`:
 * `PyVal` models the Python values the engine traverses.
 * `PyErr` models the exceptions evaluation can raise.
 * `Validator` has one constructor per validator class, carrying exactly the
   constructor parameters of the class.
 * `validate` is `AbstractValidator.validate`/`_validate`; the `level`
   parameter and the `print` tracing are omitted: they are purely
   observational (depth-indexed logging) and never influence a result.
Evaluation returns `Except PyErr PyVal`: `Except.error` is a raised Python
exception, `Except.ok r` a normal return with `r = PyVal.none` playing the
role of the failure sentinel.
-/

/-- Runtime type tags used by `TypeValidator` and the engine's `isinstance`
checks. -/
inductive PyType where
  | intT
  | strT
  | boolT
  | listT
  | tupleT
  | dictT
deriving Repr

/-- Python values handled by the engine.  `genObj elems` models the
un-evaluated generator object `(self.validator.validate(val, level) for val
in value)` that `ListValidator._validate` creates over the source elements
`elems`; no code path exercised here ever consumes such a generator, it only
escapes as data inside the `removeIfNone=False` result. -/
inductive PyVal where
  | none
  | bool (b : Bool)
  | int (n : Int)
  | str (s : String)
  | list (xs : List PyVal)
  | tuple (xs : List PyVal)
  | dict (entries : List (PyVal × PyVal))
  | genObj (src : List PyVal)
deriving Repr

/-- Exceptions the engine can raise: the explicit
`Exception('Multiple validators matched!')` of `AnyValidator._validate`, the
`NameError` caused by its reference to the undefined name `checkResult`, and
the `TypeError`/`ValueError` of a failed `k, v = t` unpacking in
`DictValidator._validate` (the two unpacking errors are not told apart). -/
inductive PyErr where
  | multipleMatched
  | nameError (name : String)
  | unpackError
deriving Repr

/-- Python's `value is None` test, the failure sentinel check every
combinator performs (`... is not None`). -/
def PyVal.isNone : PyVal → Bool
  | .none => true
  | _ => false

/-- The spec's two-case `Outcome` type (§3): a returned value is read as
`Failed` exactly when it is the `None` sentinel, `Matched` otherwise.  This
is the interpretation under which the code's `None`-based protocol is
compared against the spec's `Matched`/`Failed` vocabulary. -/
inductive Outcome where
  | matched (v : PyVal)
  | failed
deriving Repr

/-- Reads a returned value as the spec-level outcome it stands for. -/
def outcomeOf (v : PyVal) : Outcome :=
  if v.isNone then Outcome.failed else Outcome.matched v

/-- `isinstance(value, tp)` for the type tags the engine uses.  Python's
`bool` is a subclass of `int`, so a `bool` is an instance of `int`. -/
def isInstance (v : PyVal) : PyType → Bool
  | .intT => match v with
    | .int _ => true
    | .bool _ => true
    | _ => false
  | .strT => match v with
    | .str _ => true
    | _ => false
  | .boolT => match v with
    | .bool _ => true
    | _ => false
  | .listT => match v with
    | .list _ => true
    | _ => false
  | .tupleT => match v with
    | .tuple _ => true
    | _ => false
  | .dictT => match v with
    | .dict _ => true
    | _ => false

/-- Iteration over a Python value: `Option.some` of the yielded elements when
the value is iterable (`isinstance(value, Iterable)`), `Option.none`
otherwise.  Strings yield their one-character substrings and dicts their
keys, as in Python.  Consuming a generator object would re-run suspended
validator calls — an effect outside this value model — and no modeled code
path consumes one, so iteration over `genObj` is left unsupported. -/
def pyIter : PyVal → Option (List PyVal)
  | .str s => Option.some (s.toList.map (fun c => PyVal.str (String.mk [c])))
  | .list xs => Option.some xs
  | .tuple xs => Option.some xs
  | .dict es => Option.some (es.map (fun e => e.1))
  | _ => Option.none

/-- The numeric value of a Python `bool` (`True == 1`, `False == 0`). -/
def boolToInt (b : Bool) : Int := if b then 1 else 0

mutual

/-- Python's `==` on the modeled values, as used by
`ValueValidator._validate` (`value == self.value`): structural equality on
composites, with the numeric cross-equality `True == 1` / `False == 0`
between `bool` and `int`.  Dict equality compares entry lists up to order
(entry lists built by this engine are duplicate-free); generator objects
compare by identity in Python and are never compared here, so they are
treated as unequal to everything. -/
def pyEq : PyVal → PyVal → Bool
  | .none, .none => true
  | .bool a, .bool b => a == b
  | .bool a, .int n => boolToInt a == n
  | .int m, .bool b => m == boolToInt b
  | .int m, .int n => m == n
  | .str s, .str t => s == t
  | .list as, .list bs => pyEqList as bs
  | .tuple as, .tuple bs => pyEqList as bs
  | .dict es, .dict fs =>
      es.length == fs.length && pyEqEntries es fs && pyEqEntries fs es
  | _, _ => false
termination_by a b => sizeOf a + sizeOf b
decreasing_by all_goals (simp_wf; try omega)

/-- Elementwise `==` on two sequences of the same kind. -/
def pyEqList : List PyVal → List PyVal → Bool
  | [], [] => true
  | a :: as, b :: bs => pyEq a b && pyEqList as bs
  | _, _ => false
termination_by as bs => sizeOf as + sizeOf bs
decreasing_by all_goals (simp_wf; try omega)

/-- Every entry of the first list has an `==`-equal entry in the second. -/
def pyEqEntries : List (PyVal × PyVal) → List (PyVal × PyVal) → Bool
  | [], _ => true
  | e :: es, fs => pyEqEntryMem e fs && pyEqEntries es fs
termination_by es fs => sizeOf es + sizeOf fs
decreasing_by all_goals (simp_wf; try omega)

/-- The given entry has an `==`-equal entry in the list. -/
def pyEqEntryMem : PyVal × PyVal → List (PyVal × PyVal) → Bool
  | _, [] => false
  | (k, v), (k', v') :: fs => (pyEq k k' && pyEq v v') || pyEqEntryMem (k, v) fs
termination_by e fs => sizeOf e + sizeOf fs
decreasing_by all_goals (simp_wf; try omega)

end

/-- The validator tree (§3): one constructor per validator class of
`args.py`, carrying exactly the constructor parameters of that class. -/
inductive Validator where
  | PassValidator
  | ReplaceValidator (validator : Validator) (replacement : PyVal)
  | AllValidator (validators : List Validator) (shortCircuit allowEmpty : Bool)
  | AnyValidator (validators : List Validator) (shortCircuit allowEmpty : Bool)
  | TypeValidator (tp : PyType)
  | ListValidator (validator : Validator) (removeIfNone : Bool)
  | TupleValidator (validators : List Validator) (allowEmpty shortCircuit matchLength : Bool)
  | ValueValidator (value : PyVal)
  | DictValidator (keyValidator valueValidator tupleValidator : Validator) (removeIfNone : Bool)
deriving Repr

/-- Unpacking `k, v = t` of a Python value: succeeds exactly when the value
is an iterable yielding exactly two elements. -/
def pyUnpack2 (t : PyVal) : Option (PyVal × PyVal) :=
  match pyIter t with
  | Option.some [a, b] => Option.some (a, b)
  | _ => Option.none

/-- One assignment `d[k] = v` of a Python dict display: an `==`-equal key is
updated in place (the stored key object is kept), a new key is appended. -/
def dictAssign (acc : List (PyVal × PyVal)) (k v : PyVal) : List (PyVal × PyVal) :=
  if acc.any (fun e => pyEq e.1 k) then
    acc.map (fun e => if pyEq e.1 k then (e.1, v) else e)
  else acc ++ [(k, v)]

/-- Builds the mapping `{k: v for k, v in ...}` from the unpacked pairs. -/
def buildDict (acc : List (PyVal × PyVal)) : List (PyVal × PyVal) → List (PyVal × PyVal)
  | [] => acc
  | (k, v) :: rest => buildDict (dictAssign acc k v) rest

mutual

/-- `AbstractValidator.validate`, dispatching to the `_validate` of each
subclass.  The `level` argument and the `print` trace line are omitted:
they are purely observational and never influence a result (§2, §6). -/
def validate : Validator → PyVal → Except PyErr PyVal
  | .PassValidator, value => Except.ok value
  | .ReplaceValidator inner replacement, value =>
      match validate inner value with
      | Except.error e => Except.error e
      | Except.ok result =>
          Except.ok (if result.isNone then replacement else result)
  | .AllValidator validators shortCircuit allowEmpty, value =>
      if validators.isEmpty then
        Except.ok (if allowEmpty then value else PyVal.none)
      else
        match allLoop value shortCircuit true validators with
        | Except.error e => Except.error e
        | Except.ok checkResult =>
            Except.ok (if checkResult then value else PyVal.none)
  | .AnyValidator validators shortCircuit allowEmpty, value =>
      if validators.isEmpty then
        Except.ok (if allowEmpty then value else PyVal.none)
      else
        anyLoop value shortCircuit PyVal.none validators
  | .TypeValidator tp, value =>
      Except.ok (if isInstance value tp then value else PyVal.none)
  | .ListValidator inner removeIfNone, value =>
      match pyIter value with
      | Option.none => Except.ok PyVal.none
      | Option.some elems =>
          if removeIfNone then
            match listEval inner elems with
            | Except.error e => Except.error e
            | Except.ok outs =>
                Except.ok (PyVal.list (outs.filter (fun o => !o.isNone)))
          else
            Except.ok (PyVal.list [PyVal.genObj elems])
  | .TupleValidator validators allowEmpty _shortCircuit matchLength, value =>
      match value with
      | PyVal.tuple xs =>
          if validators.isEmpty then
            Except.ok (if allowEmpty then PyVal.tuple xs else PyVal.none)
          else if matchLength && xs.length != validators.length then
            Except.ok PyVal.none
          else
            match tupleEval validators xs with
            | Except.error e => Except.error e
            | Except.ok outs => Except.ok (PyVal.tuple outs)
      | _ => Except.ok PyVal.none
  | .ValueValidator constant, value =>
      Except.ok (if pyEq value constant then value else PyVal.none)
  | .DictValidator keyV valueV tupleV removeIfNone, value =>
      match value with
      | PyVal.dict entries =>
          match dictLoop keyV valueV tupleV removeIfNone entries with
          | Except.error e => Except.error e
          | Except.ok kvs => Except.ok (PyVal.dict (buildDict [] kvs))
      | _ => Except.ok PyVal.none
termination_by V _ => (sizeOf V, 0)

/-- The loop of `AllValidator._validate`, with its `checkResult`
accumulator.  `checkResult and (validator.validate(value, level) is not
None)` does not call the child at all once `checkResult` is already `False`
(Python's `and` short-circuits), and the explicit `break` fires only when
`shortCircuit` is set; a `break` ends the loop with `checkResult = False`,
so it is rendered as returning `False` directly. -/
def allLoop (value : PyVal) (shortCircuit : Bool) (checkResult : Bool) :
    List Validator → Except PyErr Bool
  | [] => Except.ok checkResult
  | c :: rest =>
      if checkResult then
        match validate c value with
        | Except.error e => Except.error e
        | Except.ok r =>
            if shortCircuit && r.isNone then Except.ok false
            else allLoop value shortCircuit (!r.isNone) rest
      else
        if shortCircuit then Except.ok false
        else allLoop value shortCircuit false rest
termination_by vs => (sizeOf vs, 0)

/-- The loop of `AnyValidator._validate` with its `result` accumulator
(Python `None` when no child has matched yet).  A second match raises
`Exception('Multiple validators matched!')`.  The `break` condition is
`self.shortCircuit and not (result is not None)`; both the `break` and the
end of the loop reach `return value if checkResult else None`, whose name
`checkResult` is undefined in this method, so both raise `NameError`. -/
def anyLoop (value : PyVal) (shortCircuit : Bool) (result : PyVal) :
    List Validator → Except PyErr PyVal
  | [] => Except.error (PyErr.nameError "checkResult")
  | c :: rest =>
      match validate c value with
      | Except.error e => Except.error e
      | Except.ok newResult =>
          if !newResult.isNone then
            if !result.isNone then Except.error PyErr.multipleMatched
            else anyLoop value shortCircuit newResult rest
          else
            if shortCircuit && result.isNone then
              Except.error (PyErr.nameError "checkResult")
            else anyLoop value shortCircuit result rest
termination_by vs => (sizeOf vs, 0)

/-- The element traversal of `ListValidator._validate`: the child validator
applied to each element in order, stopping at the first raised exception. -/
def listEval (inner : Validator) : List PyVal → Except PyErr (List PyVal)
  | [] => Except.ok []
  | x :: xs =>
      match validate inner x with
      | Except.error e => Except.error e
      | Except.ok r =>
          match listEval inner xs with
          | Except.error e => Except.error e
          | Except.ok rs => Except.ok (r :: rs)
termination_by xs => (sizeOf inner, xs.length + 1)

/-- The positional traversal of `TupleValidator._validate`:
`zip(self.validators, value)` truncates to the shorter of the two lists. -/
def tupleEval : List Validator → List PyVal → Except PyErr (List PyVal)
  | [], _ => Except.ok []
  | _ :: _, [] => Except.ok []
  | c :: cs, x :: xs =>
      match validate c x with
      | Except.error e => Except.error e
      | Except.ok r =>
          match tupleEval cs xs with
          | Except.error e => Except.error e
          | Except.ok rs => Except.ok (r :: rs)
termination_by cs _ => (sizeOf cs, 0)

/-- The work `DictValidator._validate` performs for one key-value pair, in
the order in which the dict display forces the lazy generators: validate the
key with `keyValidator` and the value with `valueValidator`, validate the
resulting pair as a 2-tuple with `tupleValidator`, apply the `removeIfNone`
filter (`Option.none` stands for a filtered-out pair), and unpack the
surviving result as `k, v`. -/
def dictEntry (keyV valueV tupleV : Validator) (removeIfNone : Bool)
    (k v : PyVal) : Except PyErr (Option (PyVal × PyVal)) :=
  match validate keyV k with
  | Except.error e => Except.error e
  | Except.ok kr =>
      match validate valueV v with
      | Except.error e => Except.error e
      | Except.ok vr =>
          match validate tupleV (PyVal.tuple [kr, vr]) with
          | Except.error e => Except.error e
          | Except.ok t =>
              if removeIfNone && t.isNone then Except.ok Option.none
              else
                match pyUnpack2 t with
                | Option.none => Except.error PyErr.unpackError
                | Option.some (a, b) => Except.ok (Option.some (a, b))
termination_by (sizeOf keyV + sizeOf valueV + sizeOf tupleV, 0)
decreasing_by
all_goals
  (have h1 : 0 < sizeOf keyV := by cases keyV <;> simp_arith
   have h2 : 0 < sizeOf valueV := by cases valueV <;> simp_arith
   have h3 : 0 < sizeOf tupleV := by cases tupleV <;> simp_arith
   apply Prod.Lex.left
   omega)

/-- The entry traversal of `DictValidator._validate`: each key-value pair is
processed by `dictEntry` in input order, a filtered-out pair contributes
nothing, and the first raised exception aborts the traversal. -/
def dictLoop (keyV valueV tupleV : Validator) (removeIfNone : Bool) :
    List (PyVal × PyVal) → Except PyErr (List (PyVal × PyVal))
  | [] => Except.ok []
  | (k, v) :: rest =>
      match dictEntry keyV valueV tupleV removeIfNone k v with
      | Except.error e => Except.error e
      | Except.ok headOpt =>
          match dictLoop keyV valueV tupleV removeIfNone rest with
          | Except.error e => Except.error e
          | Except.ok kvs => Except.ok (headOpt.toList ++ kvs)
termination_by entries => (sizeOf keyV + sizeOf valueV + sizeOf tupleV, entries.length + 1)
decreasing_by
all_goals (simp_wf; apply Prod.Lex.right; omega)

end

/-- Evaluation read at the spec level: `Option.none` when the evaluation
raised an exception, otherwise the `Outcome` the returned value stands
for. -/
def evalOutcome (V : Validator) (v : PyVal) : Option Outcome :=
  match validate V v with
  | Except.ok r => Option.some (outcomeOf r)
  | Except.error _ => Option.none

/-- The child `c` matches `value`: its evaluation returns normally with a
non-`None` result. -/
def matchesOn (c : Validator) (value : PyVal) : Prop :=
  ∃ w, validate c value = Except.ok w ∧ w.isNone = false

/-- The per-field tuple branches of the §4.10 name/exec/args/dir schema:
each branch pairs a `ValueValidator` on the key with a type check on the
value, built with the `TupleValidator` constructor defaults
(`allowEmpty=True`, `shortCircuit=True`, `matchLength=True`). -/
def schemaBranches : List Validator :=
  [ .TupleValidator [.ValueValidator (.str "name"), .TypeValidator .strT] true true true,
    .TupleValidator [.ValueValidator (.str "exec"), .TypeValidator .strT] true true true,
    .TupleValidator [.ValueValidator (.str "args"), .ListValidator (.TypeValidator .strT) true] true true true,
    .TupleValidator [.ValueValidator (.str "dir"), .TypeValidator .strT] true true true ]

/-- The dispatch validator of the §4.10 schema: an `AnyValidator` over the
per-field tuple branches, with the constructor defaults
(`shortCircuit=False`, `allowEmpty=False`). -/
def schemaTupleValidator : Validator := .AnyValidator schemaBranches false false

/-- The §4.10 `DictValidator`: key and value validators left at their
`PassValidator` defaults, the pair dispatched through
`schemaTupleValidator`, with `removeIfNone` set. -/
def schemaValidator : Validator :=
  .DictValidator .PassValidator .PassValidator schemaTupleValidator true

/-- The §8 test mapping: the four schema fields plus a `"bogus"` entry. -/
def configInput : PyVal :=
  .dict [ (.str "name", .str "svc1"), (.str "exec", .str "run.sh"),
          (.str "args", .list [.str "-x"]), (.str "dir", .str "./"),
          (.str "bogus", .int 1) ]

/-- `PassValidator._validate` returns its input unchanged. -/
theorem validate_pass (v : PyVal) : validate .PassValidator v = Except.ok v := by
  simp [validate]

/-- `TypeValidator._validate`: the input when the `isinstance` check holds,
the `None` sentinel otherwise. -/
theorem validate_type (tp : PyType) (v : PyVal) :
    validate (.TypeValidator tp) v = Except.ok (if isInstance v tp then v else PyVal.none) := by
  simp [validate]

/-- `ReplaceValidator._validate` when the inner evaluation returns: the
inner result if it is not `None`, the replacement otherwise. -/
theorem validate_replace (inner : Validator) (rep v w : PyVal)
    (hw : validate inner v = Except.ok w) :
    validate (.ReplaceValidator inner rep) v
      = Except.ok (if w.isNone then rep else w) := by
  simp [validate, hw]

/-- `AllValidator._validate` on an empty child list: decided by
`allowEmpty` alone. -/
theorem validate_all_empty (sc ae : Bool) (v : PyVal) :
    validate (.AllValidator [] sc ae) v
      = Except.ok (if ae then v else PyVal.none) := by
  simp [validate]

/-- Once `checkResult` is `False` it stays `False`: Python's `and` never
calls another child, and the final result is `False` with or without the
explicit `break`. -/
theorem allLoop_false (v : PyVal) (sc : Bool) (vs : List Validator) :
    allLoop v sc false vs = Except.ok false := by
  induction vs with
  | nil => simp [allLoop]
  | cons c rest ih => cases sc <;> simp [allLoop, ih]

/-- The `AllValidator` loop returns the same value with and without
`shortCircuit`: the `break` only skips iterations in which the `and`
short-circuit would not have called the child anyway. -/
theorem allLoop_sc (v : PyVal) (cr : Bool) (vs : List Validator) :
    allLoop v true cr vs = allLoop v false cr vs := by
  induction vs generalizing cr with
  | nil => simp [allLoop]
  | cons c rest ih =>
      cases cr with
      | false => simp [allLoop, allLoop_false]
      | true =>
          cases hr : validate c v with
          | error e => simp [allLoop, hr]
          | ok r =>
              cases hrn : r.isNone with
              | true => simp [allLoop, hr, hrn, allLoop_false]
              | false => simp [allLoop, hr, hrn, ih]

/-- The `None` sentinel is `None`. -/
theorem isNone_none : PyVal.none.isNone = true := rfl

/-- A non-empty `AnyValidator` hands control to its scanning loop with
`result = None`. -/
theorem validate_any_ne (vs : List Validator) (sc ae : Bool) (v : PyVal)
    (hne : vs ≠ []) :
    validate (.AnyValidator vs sc ae) v = anyLoop v sc PyVal.none vs := by
  cases vs with
  | nil => exact absurd rfl hne
  | cons c rest => simp [validate]

/-- Without `shortCircuit`, once the `AnyValidator` loop holds a non-`None`
`result`, a later matching child raises the multiple-match exception
(provided the children in between return normally). -/
theorem anyLoop_second_match (v res : PyVal) (vs : List Validator)
    (hres : res.isNone = false)
    (hok : ∀ c ∈ vs, ∃ r, validate c v = Except.ok r)
    (hm : ∃ c ∈ vs, matchesOn c v) :
    anyLoop v false res vs = Except.error PyErr.multipleMatched := by
  induction vs with
  | nil =>
      rcases hm with ⟨c, hc, _⟩
      cases hc
  | cons c rest ih =>
      rcases hok c (List.mem_cons_self c rest) with ⟨r, hr⟩
      cases hrn : r.isNone with
      | false => simp [anyLoop, hr, hrn, hres]
      | true =>
          have hstep : anyLoop v false res (c :: rest)
              = anyLoop v false res rest := by
            simp [anyLoop, hr, hrn]
          rw [hstep]
          apply ih
          · intro c' hc'
            exact hok c' (List.mem_cons_of_mem _ hc')
          · rcases hm with ⟨c', hc', hmc⟩
            rcases List.mem_cons.mp hc' with h | h
            · subst h
              rcases hmc with ⟨w, hw, hwn⟩
              rw [hr] at hw
              cases hw
              rw [hrn] at hwn
              cases hwn
            · exact ⟨c', h, hmc⟩

/-- Without `shortCircuit`, an `AnyValidator` loop that starts with no match
and whose children include two matching ones (all children returning
normally) raises the multiple-match exception. -/
theorem anyLoop_two_matches (v : PyVal) (pre mid post : List Validator)
    (c1 c2 : Validator)
    (hok : ∀ c ∈ pre ++ (c1 :: (mid ++ (c2 :: post))), ∃ r, validate c v = Except.ok r)
    (hm1 : matchesOn c1 v) (hm2 : matchesOn c2 v) :
    anyLoop v false PyVal.none (pre ++ (c1 :: (mid ++ (c2 :: post))))
      = Except.error PyErr.multipleMatched := by
  induction pre with
  | nil =>
      rcases hm1 with ⟨w, hw, hwn⟩
      have hstep : anyLoop v false PyVal.none (c1 :: (mid ++ (c2 :: post)))
          = anyLoop v false w (mid ++ (c2 :: post)) := by
        simp [anyLoop, hw, hwn, isNone_none]
      simp only [List.nil_append]
      rw [hstep]
      apply anyLoop_second_match v w _ hwn
      · intro c' hc'
        apply hok
        simp only [List.nil_append]
        exact List.mem_cons_of_mem _ hc'
      · exact ⟨c2, by simp, hm2⟩
  | cons p pre' ih =>
      rcases hok p (by simp) with ⟨r, hr⟩
      cases hrn : r.isNone with
      | false =>
          have hstep : anyLoop v false PyVal.none
              (p :: (pre' ++ (c1 :: (mid ++ (c2 :: post)))))
              = anyLoop v false r (pre' ++ (c1 :: (mid ++ (c2 :: post)))) := by
            simp [anyLoop, hr, hrn, isNone_none]
          simp only [List.cons_append]
          rw [hstep]
          apply anyLoop_second_match v r _ hrn
          · intro c' hc'
            apply hok
            simp only [List.cons_append]
            exact List.mem_cons_of_mem _ hc'
          · exact ⟨c1, by simp, hm1⟩
      | true =>
          have hstep : anyLoop v false PyVal.none
              (p :: (pre' ++ (c1 :: (mid ++ (c2 :: post)))))
              = anyLoop v false PyVal.none (pre' ++ (c1 :: (mid ++ (c2 :: post)))) := by
            simp [anyLoop, hr, hrn, isNone_none]
          simp only [List.cons_append]
          rw [hstep]
          apply ih
          intro c' hc'
          apply hok
          simp only [List.cons_append]
          exact List.mem_cons_of_mem _ hc'

/-- A `dictEntry` step raises whatever exception the tuple validation of the
already-validated pair raises. -/
theorem dictEntry_tuple_error (kV vV tV : Validator) (rif : Bool)
    (k v kr vr : PyVal) (e : PyErr)
    (hk : validate kV k = Except.ok kr) (hv : validate vV v = Except.ok vr)
    (ht : validate tV (.tuple [kr, vr]) = Except.error e) :
    dictEntry kV vV tV rif k v = Except.error e := by
  simp [dictEntry, hk, hv, ht]

/-- An exception in the first entry's pipeline aborts the whole
`DictValidator` traversal. -/
theorem dictLoop_cons_error (kV vV tV : Validator) (rif : Bool) (k v : PyVal)
    (rest : List (PyVal × PyVal)) (e : PyErr)
    (h : dictEntry kV vV tV rif k v = Except.error e) :
    dictLoop kV vV tV rif ((k, v) :: rest) = Except.error e := by
  simp [dictLoop, h]

/-- `DictValidator._validate` propagates an exception raised while the dict
display forces the entry pipeline. -/
theorem validate_dict_error (kV vV tV : Validator) (rif : Bool)
    (es : List (PyVal × PyVal)) (e : PyErr)
    (h : dictLoop kV vV tV rif es = Except.error e) :
    validate (.DictValidator kV vV tV rif) (.dict es) = Except.error e := by
  simp [validate, h]

/-- A successful positional traversal produces one outcome per zipped
position: `zip` truncates to the shorter of the two lists. -/
theorem tupleEval_length (vs : List Validator) (xs outs : List PyVal)
    (h : tupleEval vs xs = Except.ok outs) :
    outs.length = min vs.length xs.length := by
  induction vs generalizing xs outs with
  | nil =>
      simp [tupleEval] at h
      subst h
      simp
  | cons c cs ih =>
      cases xs with
      | nil =>
          simp [tupleEval] at h
          subst h
          simp
      | cons x xs =>
          cases hv : validate c x with
          | error e => simp [tupleEval, hv] at h
          | ok r =>
              cases ht : tupleEval cs xs with
              | error e => simp [tupleEval, hv, ht] at h
              | ok rs =>
                  simp [tupleEval, hv, ht] at h
                  subst h
                  simp [ih xs rs ht, Nat.succ_min_succ]

/-- With `matchLength` unset and a non-empty child list,
`TupleValidator._validate` returns the positional traversal of the zipped
prefix, whatever the arities are. -/
theorem validate_tuple_nolength (vs : List Validator) (ae sc : Bool)
    (xs : List PyVal) (hne : vs ≠ []) :
    validate (.TupleValidator vs ae sc false) (.tuple xs)
      = (tupleEval vs xs).map PyVal.tuple := by
  cases vs with
  | nil => exact absurd rfl hne
  | cons c rest =>
      cases ht : tupleEval (c :: rest) xs <;>
        simp [validate, ht, Except.map]

/-- With `matchLength` set and a non-empty child list, an arity mismatch
makes `TupleValidator._validate` fail before touching any child. -/
theorem validate_tuple_mismatch (vs : List Validator) (ae sc : Bool)
    (xs : List PyVal) (hne : vs ≠ []) (hlen : xs.length ≠ vs.length) :
    validate (.TupleValidator vs ae sc true) (.tuple xs) = Except.ok PyVal.none := by
  cases vs with
  | nil => exact absurd rfl hne
  | cons c rest =>
      simp [validate, hlen]
      intro h
      exact absurd h (by simpa using hlen)

/-- C1: the claim says that with exactly one matching child
`AnyValidator.evaluate` returns that child's `Matched` payload.  The code
instead reaches `return value if checkResult else None`, whose name
`checkResult` is undefined in `AnyValidator._validate`, and raises
`NameError` — here on `AnyValidator([TypeValidator(int)])` applied to `1`,
whose single child matches. -/
theorem c1_any_single_match_raises_nameerror :
    validate (.AnyValidator [.TypeValidator .intT] false false) (.int 1)
      = Except.error (PyErr.nameError "checkResult") := by
  simp [validate, anyLoop, isInstance, PyVal.isNone]

/-- C3: the claim says the §4.10 schema with `removeFailed` drops the
`"bogus"` entry and keeps the other four.  The code instead raises
`Exception('Multiple validators matched!')` while validating the very first
pair `("name", "svc1")`: the `name` branch returns the matched pair, and the
`exec` branch — whose arity also fits — returns the non-`None` tuple
`(None, "svc1")`, so the `AnyValidator` sees a second "match". -/
theorem c3_dict_schema_raises_multiple_matched :
    validate schemaValidator configInput = Except.error PyErr.multipleMatched := by
  have hAny : validate schemaTupleValidator (.tuple [.str "name", .str "svc1"])
      = Except.error PyErr.multipleMatched := by
    simp [schemaTupleValidator, schemaBranches, validate, anyLoop, tupleEval,
      pyEq, isInstance, PyVal.isNone]
  have hentry : dictEntry .PassValidator .PassValidator schemaTupleValidator
      true (.str "name") (.str "svc1") = Except.error PyErr.multipleMatched :=
    dictEntry_tuple_error _ _ _ _ _ _ _ _ _
      (validate_pass _) (validate_pass _) hAny
  have hloop : dictLoop .PassValidator .PassValidator schemaTupleValidator true
      [ (.str "name", .str "svc1"), (.str "exec", .str "run.sh"),
        (.str "args", .list [.str "-x"]), (.str "dir", .str "./"),
        (.str "bogus", .int 1) ] = Except.error PyErr.multipleMatched :=
    dictLoop_cons_error _ _ _ _ _ _ _ _ hentry
  exact validate_dict_error _ _ _ _ _ _ hloop

/-- C4, counterexample: with the legitimate null fallback `d = None`,
`ReplaceValidator(TypeValidator(int), None)` applied to `"x"` returns the
`None` sentinel, which the engine reads as `Failed` — refuting "is never
`Failed`" as universally quantified over the fallback value. -/
theorem c4_null_fallback_yields_failed :
    validate (.ReplaceValidator (.TypeValidator .intT) PyVal.none) (.str "x")
      = Except.ok PyVal.none ∧
    outcomeOf PyVal.none = Outcome.failed := by
  constructor
  · simp [validate, isInstance]
  · simp [outcomeOf, isNone_none]

/-- C4, amended: for every fallback other than null, whenever the inner
evaluation returns, `ReplaceValidator` yields the inner result if that is
`Matched` and `Matched(fallback)` if it is `Failed`, and is itself never
`Failed`. -/
theorem c4_replace_never_fails_nonnull_fallback (V : Validator) (d v w : PyVal)
    (hd : d.isNone = false) (hw : validate V v = Except.ok w) :
    validate (.ReplaceValidator V d) v = Except.ok (if w.isNone then d else w) ∧
    outcomeOf (if w.isNone then d else w) ≠ Outcome.failed := by
  refine ⟨validate_replace V d v w hw, ?_⟩
  cases hwn : w.isNone <;> simp [outcomeOf, hwn, hd]

/-- Witness for C4's amended theorem at `V = TypeValidator(int)`,
`d = 0`, `v = "x"`. -/
theorem c4_replace_never_fails_nonnull_fallback_witness :
    (PyVal.int 0).isNone = false ∧
    validate (.TypeValidator .intT) (.str "x") = Except.ok PyVal.none ∧
    (validate (.ReplaceValidator (.TypeValidator .intT) (.int 0)) (.str "x")
        = Except.ok (if PyVal.none.isNone then PyVal.int 0 else PyVal.none) ∧
      outcomeOf (if PyVal.none.isNone then PyVal.int 0 else PyVal.none)
        ≠ Outcome.failed) := by
  refine ⟨rfl, by simp [validate, isInstance], ?_⟩
  exact c4_replace_never_fails_nonnull_fallback (.TypeValidator .intT)
    (.int 0) (.str "x") PyVal.none rfl (by simp [validate, isInstance])

/-- C5, counterexample: `PassValidator` applied to null returns the `None`
sentinel, whose outcome reading is `Failed`, not a `Matched(None)` distinct
from `Failed` — the conflation the claim's final clause denies. -/
theorem c5_pass_null_conflated_with_failed :
    validate .PassValidator PyVal.none = Except.ok PyVal.none ∧
    outcomeOf PyVal.none = Outcome.failed ∧
    Outcome.failed ≠ Outcome.matched PyVal.none := by
  refine ⟨validate_pass PyVal.none, by simp [outcomeOf, isNone_none], by simp⟩

/-- C5, amended: `PassValidator` returns its input unchanged for every
value, and for every non-null value that is the outcome `Matched(v)`. -/
theorem c5_pass_identity_nonnull (v : PyVal) :
    validate .PassValidator v = Except.ok v ∧
    (v.isNone = false → outcomeOf v = Outcome.matched v) := by
  refine ⟨validate_pass v, fun hv => ?_⟩
  simp [outcomeOf, hv]

/-- Witness for C5's amended theorem at `v = 5`. -/
theorem c5_pass_identity_nonnull_witness :
    validate .PassValidator (.int 5) = Except.ok (.int 5) ∧
    outcomeOf (.int 5) = Outcome.matched (.int 5) :=
  ⟨(c5_pass_identity_nonnull (.int 5)).1, (c5_pass_identity_nonnull (.int 5)).2 rfl⟩

/-- C6: the claim says that with `removeFailed` unset the result is the full
ordered sequence of per-element outcomes.  With `removeFailed` set the code
does return the filtered subsequence (`[1, 3]` here), but with it unset the
line `return [newValues]` wraps the un-evaluated generator object itself in
a one-element list instead of the outcome sequence `[1, None, 3]`. -/
theorem c6_list_no_filter_returns_generator_cell :
    validate (.ListValidator (.TypeValidator .intT) true)
        (.list [.int 1, .str "x", .int 3]) = Except.ok (.list [.int 1, .int 3]) ∧
    validate (.ListValidator (.TypeValidator .intT) false)
        (.list [.int 1, .str "x", .int 3])
      = Except.ok (.list [.genObj [.int 1, .str "x", .int 3]]) ∧
    PyVal.list [.genObj [.int 1, .str "x", .int 3]]
      ≠ PyVal.list [.int 1, PyVal.none, .int 3] := by
  refine ⟨?_, ?_, by simp⟩
  · simp [validate, listEval, pyIter, isInstance, PyVal.isNone, List.filter]
  · simp [validate, pyIter]

/-- C7, counterexample: with `allowEmpty` set, `AllValidator([])` applied to
the null input returns the `None` sentinel — read as `Failed`, not the
`Matched(None)` the claim requires "regardless of v". -/
theorem c7_empty_all_null_input_failed :
    validate (.AllValidator [] false true) PyVal.none = Except.ok PyVal.none ∧
    outcomeOf PyVal.none = Outcome.failed ∧
    Outcome.failed ≠ Outcome.matched PyVal.none := by
  refine ⟨?_, by simp [outcomeOf, isNone_none], by simp⟩
  simpa using validate_all_empty false true PyVal.none

/-- C7, amended: for every non-null input, an `AllValidator` with an empty
child list yields `Matched(v)` iff `allowEmpty` is set, else `Failed`,
regardless of `shortCircuit` and of the input. -/
theorem c7_empty_all_nonnull (sc ae : Bool) (v : PyVal) (hv : v.isNone = false) :
    evalOutcome (.AllValidator [] sc ae) v
      = Option.some (if ae then Outcome.matched v else Outcome.failed) := by
  cases ae <;> simp [evalOutcome, validate_all_empty, outcomeOf, hv, isNone_none]

/-- Witness for C7's amended theorem at `v = 0` (a legitimate zero value),
`allowEmpty = true`. -/
theorem c7_empty_all_nonnull_witness :
    (PyVal.int 0).isNone = false ∧
    evalOutcome (.AllValidator [] false true) (.int 0)
      = Option.some (if true then Outcome.matched (.int 0) else Outcome.failed) :=
  ⟨rfl, c7_empty_all_nonnull false true (.int 0) rfl⟩

/-- C2, counterexample: with `shortCircuit` set, an `AnyValidator` whose
second and third children both match the input `1` never reports the
ambiguity: the first (failing) child triggers the inverted `break`
condition, and evaluation ends in the generic `NameError` of the undefined
`checkResult` — not the multiple-match fault the claim requires. -/
theorem c2_shortcircuit_two_matches_unreported :
    matchesOn (.TypeValidator .intT) (.int 1) ∧
    validate (.AnyValidator
        [.TypeValidator .strT, .TypeValidator .intT, .TypeValidator .intT]
        true false) (.int 1)
      = Except.error (PyErr.nameError "checkResult") ∧
    (Except.error (PyErr.nameError "checkResult") : Except PyErr PyVal)
      ≠ Except.error PyErr.multipleMatched := by
  refine ⟨⟨.int 1, by simp [validate, isInstance], rfl⟩, ?_, by simp⟩
  simp [validate, anyLoop, isInstance, PyVal.isNone]

/-- C2, amended: with `shortCircuit` unset, whenever every child evaluation
returns normally and two children match the same input, `AnyValidator`
raises the multiple-validators-matched exception — an outcome distinct from
every normal return, hence from both `Matched` and `Failed`. -/
theorem c2_two_matches_raise_ambiguous_fault (pre mid post : List Validator)
    (c1 c2 : Validator) (ae : Bool) (v : PyVal)
    (hok : ∀ c ∈ pre ++ (c1 :: (mid ++ (c2 :: post))), ∃ r, validate c v = Except.ok r)
    (hm1 : matchesOn c1 v) (hm2 : matchesOn c2 v) :
    validate (.AnyValidator (pre ++ (c1 :: (mid ++ (c2 :: post)))) false ae) v
      = Except.error PyErr.multipleMatched ∧
    (∀ r : PyVal, (Except.error PyErr.multipleMatched : Except PyErr PyVal)
      ≠ Except.ok r) := by
  have hne : pre ++ (c1 :: (mid ++ (c2 :: post))) ≠ [] := by
    cases pre <;> simp
  refine ⟨?_, fun r h => by cases h⟩
  rw [validate_any_ne _ false ae v hne]
  exact anyLoop_two_matches v pre mid post c1 c2 hok hm1 hm2

/-- Witness for C2's amended theorem: two `TypeValidator(int)` children both
matching the input `1`, `shortCircuit` unset. -/
theorem c2_two_matches_raise_ambiguous_fault_witness :
    matchesOn (.TypeValidator .intT) (.int 1) ∧
    validate (.AnyValidator [.TypeValidator .intT, .TypeValidator .intT] false false)
        (.int 1) = Except.error PyErr.multipleMatched := by
  have hm : matchesOn (Validator.TypeValidator PyType.intT) (PyVal.int 1) :=
    ⟨.int 1, by simp [validate, isInstance], rfl⟩
  have hok : ∀ c ∈ ([] : List Validator)
      ++ (Validator.TypeValidator PyType.intT
        :: (([] : List Validator)
          ++ (Validator.TypeValidator PyType.intT :: ([] : List Validator)))),
      ∃ r, validate c (PyVal.int 1) = Except.ok r := by
    intro c hc
    have hce : c = Validator.TypeValidator PyType.intT := by simpa using hc
    subst hce
    exact ⟨.int 1, by simp [validate, isInstance]⟩
  have h := c2_two_matches_raise_ambiguous_fault [] [] []
    (.TypeValidator .intT) (.TypeValidator .intT) false (.int 1) hok hm hm
  exact ⟨hm, by simpa using h.1⟩

/-- C8, counterexample: `TupleValidator([], allowEmpty=True,
matchLength=True)` applied to the 1-tuple `("a",)` returns the tuple itself
(`Matched`), although the arity `1` differs from the zero child validators —
the empty-children check precedes the length check, so "for every tuple
input whose arity differs ... fails immediately" is false for empty child
lists. -/
theorem c8_empty_children_matchlength_skipped :
    validate (.TupleValidator [] true true true) (.tuple [.str "a"])
      = Except.ok (.tuple [.str "a"]) ∧
    (([PyVal.str "a"] : List PyVal).length ≠ ([] : List Validator).length) ∧
    outcomeOf (.tuple [.str "a"]) ≠ Outcome.failed := by
  refine ⟨by simp [validate], by decide, by simp [outcomeOf, PyVal.isNone]⟩

/-- C8, amended: the two §8 examples hold — `("name", "svc1")` yields the
tuple of the two matched outcomes and `("name", "svc1", "extra")` yields
`Failed` — and the general length rule holds for every `TupleValidator` with
`matchLength` set and a non-empty child list. -/
theorem c8_tuple_matchlength_behavior (vs : List Validator) (ae sc : Bool)
    (xs : List PyVal) (hne : vs ≠ []) (hlen : xs.length ≠ vs.length) :
    validate (.TupleValidator [.ValueValidator (.str "name"), .TypeValidator .strT]
        true true true) (.tuple [.str "name", .str "svc1"])
      = Except.ok (.tuple [.str "name", .str "svc1"]) ∧
    validate (.TupleValidator [.ValueValidator (.str "name"), .TypeValidator .strT]
        true true true) (.tuple [.str "name", .str "svc1", .str "extra"])
      = Except.ok PyVal.none ∧
    validate (.TupleValidator vs ae sc true) (.tuple xs) = Except.ok PyVal.none := by
  refine ⟨?_, ?_, validate_tuple_mismatch vs ae sc xs hne hlen⟩
  · simp [validate, tupleEval, pyEq, isInstance, PyVal.isNone]
  · simp [validate]

/-- Witness for C8's amended theorem: one child validator, a 2-tuple
input. -/
theorem c8_tuple_matchlength_behavior_witness :
    ([Validator.PassValidator] ≠ ([] : List Validator)) ∧
    (([PyVal.int 1, PyVal.int 2] : List PyVal).length
      ≠ [Validator.PassValidator].length) ∧
    validate (.TupleValidator [.PassValidator] true true true)
        (.tuple [.int 1, .int 2]) = Except.ok PyVal.none := by
  refine ⟨by simp, by decide, ?_⟩
  exact (c8_tuple_matchlength_behavior [.PassValidator] true true
    [.int 1, .int 2] (by simp) (by decide)).2.2

/-- C9: for a non-empty `AllValidator` the result with `shortCircuit` set
equals the result with it unset, on every input — Python's `and` already
skips child calls after a failure, and the explicit `break` only ends a loop
that would not have called anything further anyway. -/
theorem c9_all_shortcircuit_equivalent (vs : List Validator) (ae : Bool)
    (v : PyVal) (hne : vs ≠ []) :
    validate (.AllValidator vs true ae) v = validate (.AllValidator vs false ae) v := by
  cases vs with
  | nil => exact absurd rfl hne
  | cons c rest => simp [validate, allLoop_sc]

/-- Witness for C9 at a one-child `AllValidator` on input `1`. -/
theorem c9_all_shortcircuit_equivalent_witness :
    ([Validator.TypeValidator PyType.intT] ≠ ([] : List Validator)) ∧
    validate (.AllValidator [.TypeValidator .intT] true false) (.int 1)
      = validate (.AllValidator [.TypeValidator .intT] false false) (.int 1) :=
  ⟨by simp, c9_all_shortcircuit_equivalent [.TypeValidator .intT] false (.int 1) (by simp)⟩

/-- C10: with `matchLength` unset and a non-empty child list, an arity
mismatch does not make `TupleValidator` fail: the result is the positional
traversal of the `zip`-truncated prefix (its length is the minimum of the
two arities, surplus elements or validators silently ignored), and a normal
result is never the `Failed` sentinel. -/
theorem c10_tuple_nolength_zip_eval (vs : List Validator) (ae sc : Bool)
    (xs : List PyVal) (hne : vs ≠ []) (_hlen : xs.length ≠ vs.length) :
    validate (.TupleValidator vs ae sc false) (.tuple xs)
      = (tupleEval vs xs).map PyVal.tuple ∧
    (∀ outs, tupleEval vs xs = Except.ok outs
      → outs.length = min vs.length xs.length) ∧
    (∀ r, validate (.TupleValidator vs ae sc false) (.tuple xs) = Except.ok r
      → outcomeOf r ≠ Outcome.failed) := by
  refine ⟨validate_tuple_nolength vs ae sc xs hne,
    fun outs h => tupleEval_length vs xs outs h, fun r hr => ?_⟩
  rw [validate_tuple_nolength vs ae sc xs hne] at hr
  cases ht : tupleEval vs xs with
  | error e =>
      rw [ht] at hr
      simp [Except.map] at hr
  | ok outs =>
      rw [ht] at hr
      simp [Except.map] at hr
      subst hr
      simp [outcomeOf, PyVal.isNone]

/-- Witness for C10: two child validators, a 1-tuple input. -/
theorem c10_tuple_nolength_zip_eval_witness :
    ([Validator.TypeValidator PyType.intT, Validator.TypeValidator PyType.strT]
      ≠ ([] : List Validator)) ∧
    (([PyVal.int 7] : List PyVal).length
      ≠ [Validator.TypeValidator PyType.intT, Validator.TypeValidator PyType.strT].length) ∧
    validate (.TupleValidator [.TypeValidator .intT, .TypeValidator .strT]
        true true false) (.tuple [.int 7])
      = (tupleEval [.TypeValidator .intT, .TypeValidator .strT] [.int 7]).map PyVal.tuple := by
  refine ⟨by simp, by decide, ?_⟩
  exact (c10_tuple_nolength_zip_eval [.TypeValidator .intT, .TypeValidator .strT]
    true true [.int 7] (by simp) (by decide)).1
